import Mathlib

/-!
Verification of the TradingHass risk-gated execution engine.

All numeric quantities of the Python source are modelled as exact
rationals (`ℚ`); float rounding is out of scope.  Methods of the source
that are called but have no body under the repository (scoring helpers,
individual risk checks, market-data fetchers) are taken as explicit
inputs of the embedded functions, so every theorem quantifies over their
possible results.
-/

set_option maxHeartbeats 1000000

/-- Trading signal as consumed by `RiskManagementAgent.validate_trade`
(`tradinghaas/agents/risk-management-agent.py`): a dict with keys
`symbol`, `direction` and an optional `confidence`
(`signal.get('confidence', 0.5)`). -/
structure Signal where
  symbol : String
  direction : String
  confidence : Option ℚ
deriving DecidableEq

/-- `Position` dataclass of `risk-management-agent.py`. -/
structure Position where
  symbol : String
  direction : String
  quantity : ℚ
  entry_price : ℚ
  current_price : ℚ
  unrealized_pnl : ℚ
deriving DecidableEq

/-- `PortfolioState` dataclass of `risk-management-agent.py`; the
`positions` dict becomes an association list. -/
structure PortfolioState where
  total_value : ℚ
  cash : ℚ
  positions : List (String × Position)
  risk_exposure : ℚ
  margin_used : ℚ
  margin_available : ℚ
deriving DecidableEq

/-- Risk parameters set in `RiskManagementAgent.__init__`. -/
structure RiskConfig where
  max_position_size : ℚ
  max_portfolio_risk : ℚ
  max_correlation : ℚ
  max_sector_exposure : ℚ
  max_leverage : ℚ
  margin_minimum : ℚ
deriving DecidableEq

/-- The literal values of `RiskManagementAgent.__init__`. -/
def defaultRiskConfig : RiskConfig :=
  { max_position_size := 1/50
    max_portfolio_risk := 1/20
    max_correlation := 7/10
    max_sector_exposure := 1/4
    max_leverage := 2
    margin_minimum := 3/10 }

/-- `RiskManagementAgent._calculate_position_size`.  The two adjustment
helpers `_calculate_volatility_factor` and
`_calculate_correlation_factor` are called but defined nowhere under the
repository, so their results are the inputs `volatility_factor` and
`correlation_factor`.  The body mirrors the source: base size from
portfolio value, multiply by the confidence (default `0.5`), the
volatility factor and the correlation factor, then `min` with the base
size. -/
def calculate_position_size (cfg : RiskConfig) (signal : Signal)
    (portfolio : PortfolioState)
    (volatility_factor correlation_factor : ℚ) : ℚ :=
  let base_size := portfolio.total_value * cfg.max_position_size
  let confidence_factor := signal.confidence.getD (1/2)
  let adjusted_size := base_size * confidence_factor
  let adjusted_size := adjusted_size * volatility_factor
  let adjusted_size := adjusted_size * correlation_factor
  min adjusted_size base_size

/-- Results of the seven risk checks of
`RiskManagementAgent._perform_risk_checks`.  The individual check
methods (`_check_portfolio_risk`, `_check_position_limit`, ...) are
called but defined nowhere under the repository; their boolean outcomes
are taken as inputs. -/
structure RiskChecks where
  portfolio_risk : Bool
  position_limit : Bool
  sector_exposure : Bool
  correlation_risk : Bool
  leverage_limit : Bool
  margin_requirement : Bool
  liquidity_risk : Bool
deriving DecidableEq

/-- The dict returned by `_perform_risk_checks`, in its insertion
order. -/
def RiskChecks.toList (c : RiskChecks) : List (String × Bool) :=
  [("portfolio_risk", c.portfolio_risk),
   ("position_limit", c.position_limit),
   ("sector_exposure", c.sector_exposure),
   ("correlation_risk", c.correlation_risk),
   ("leverage_limit", c.leverage_limit),
   ("margin_requirement", c.margin_requirement),
   ("liquidity_risk", c.liquidity_risk)]

/-- `all(risk_checks.values())` in `validate_trade`. -/
def RiskChecks.all_pass (c : RiskChecks) : Bool :=
  c.toList.all Prod.snd

/-- `[k for k, v in risk_checks.items() if not v]` in `validate_trade`. -/
def failed_checks (c : RiskChecks) : List String :=
  (c.toList.filter (fun kv => !kv.2)).map Prod.fst

/-- The trade parameters assembled by `validate_trade` on approval.
`risk_level`, `stop_loss` and `take_profit` come from helper methods
with no body under the repository and are carried opaquely. -/
structure TradeParams where
  position_size : ℚ
  risk_level : ℚ
  stop_loss : ℚ
  take_profit : ℚ
deriving DecidableEq

/-- The second component of `validate_trade`'s return value: trade
parameters on approval, the failed-check names on rejection. -/
inductive ValidationOutcome where
  | approved (params : TradeParams)
  | rejected (failed : List String)
deriving DecidableEq

/-- `RiskManagementAgent.validate_trade`: size the trade, run the risk
checks, and either return the trade parameters or the list of failed
check names.  All outcomes are ordinary return values (the source wraps
the body in `try/except`; no exception escapes to the caller). -/
def validate_trade (cfg : RiskConfig) (checks : RiskChecks)
    (signal : Signal) (portfolio : PortfolioState)
    (volatility_factor correlation_factor : ℚ)
    (risk_level stop_loss take_profit : ℚ) : Bool × ValidationOutcome :=
  let position_size :=
    calculate_position_size cfg signal portfolio volatility_factor correlation_factor
  if checks.all_pass then
    (true, .approved ⟨position_size, risk_level, stop_loss, take_profit⟩)
  else
    (false, .rejected (failed_checks checks))

/-- Stress scenario parameters (`price_change`, `volatility_change`). -/
structure StressScenario where
  price_change : ℚ
  volatility_change : ℚ
deriving DecidableEq

/-- `RiskManagementAgent._initialize_stress_scenarios`, in dict
insertion order. -/
def stress_test_scenarios : List (String × StressScenario) :=
  [("market_crash", ⟨-(3/20), 2⟩),
   ("sector_rotation", ⟨-(2/25), 3/2⟩),
   ("volatility_spike", ⟨-(1/20), 3⟩)]

/-- Modelled from the spec: `RiskManagementAgent._calculate_scenario_pnl`
is called by `_run_stress_tests` but defined nowhere under the
repository.  The spec defines scenario P&L per position as
exposure × price_change (a first-order approximation), with a
position's exposure being quantity × current price; the volatility
change does not enter at first order. -/
def calculate_scenario_pnl (pos : Position) (price_change : ℚ)
    (_volatility_change : ℚ) : ℚ :=
  pos.quantity * pos.current_price * price_change

/-- `RiskManagementAgent._run_stress_tests`: for every configured
scenario, accumulate the per-position scenario P&L and report it both
in currency and as a fraction of portfolio total value.  A zero total
value would raise `ZeroDivisionError` in the source, which the
surrounding `except` turns into an empty result. -/
def run_stress_tests (p : PortfolioState) : List (String × ℚ × ℚ) :=
  if p.total_value = 0 then []
  else
    stress_test_scenarios.map (fun sc =>
      let scenario_pnl := p.positions.foldl
        (fun acc pos =>
          acc + calculate_scenario_pnl pos.2 sc.2.price_change sc.2.volatility_change) 0
      (sc.1, scenario_pnl, scenario_pnl / p.total_value))

/-- `ExecutionStrategy` enum of `execution-agent.py`. -/
inductive ExecutionStrategy where
  | AGGRESSIVE
  | PASSIVE
  | SMART
  | VWAP
  | TWAP
deriving DecidableEq

/-- `OrderStatus` enum of `execution-agent.py`. -/
inductive OrderStatus where
  | PENDING
  | ACTIVE
  | PARTIALLY_FILLED
  | FILLED
  | CANCELLED
  | REJECTED
deriving DecidableEq

/-- `OrderType` enum of `execution-agent.py`. -/
inductive OrderType where
  | MARKET
  | LIMIT
  | STOP
  | STOP_LIMIT
  | TRAILING_STOP
deriving DecidableEq

/-- `OrderRequest` dataclass of `execution-agent.py` (the `metadata`
dict is dropped; nothing verified here reads it). -/
structure OrderRequest where
  symbol : String
  order_type : OrderType
  direction : String
  quantity : ℚ
  price : Option ℚ
  stop_price : Option ℚ
  time_in_force : String
  strategy : ExecutionStrategy
deriving DecidableEq

/-- `OrderUpdate` dataclass of `execution-agent.py`; `last_fill_time`
becomes a rational timestamp. -/
structure OrderUpdate where
  order_id : String
  status : OrderStatus
  filled_quantity : ℚ
  average_price : ℚ
  last_fill_time : ℚ
  remaining_quantity : ℚ
deriving DecidableEq

/-- Execution parameters set in `ExecutionAgent.__init__`: these fields
are the whole configuration surface of the agent. -/
structure ExecutionConfig where
  max_slippage : ℚ
  min_fill_rate : ℚ
  max_spread : ℚ
  impact_threshold : ℚ
  spread_multiplier : ℚ
deriving DecidableEq

/-- The literal values of `ExecutionAgent.__init__`. -/
def defaultExecutionConfig : ExecutionConfig :=
  { max_slippage := 1/1000
    min_fill_rate := 19/20
    max_spread := 1/500
    impact_threshold := 1/10
    spread_multiplier := 3/2 }

/-- The per-symbol market state fetched inside the agent
(`_get_average_volume` / `_get_market_volatility` /
`_get_market_spread`); those fetchers have no body under the
repository, so the fetched values are inputs, with `Option.none`
standing for unavailable market data (the fetch raising). -/
structure MarketState where
  average_volume : ℚ
  volatility : ℚ
  spread : ℚ
deriving DecidableEq

/-- Result type of market-impact estimation: a finite rational or the
`float('inf')` returned by the failure path. -/
inductive Impact where
  | finite (x : ℚ)
  | infinity
deriving DecidableEq

/-- Ordering on impact values, with `infinity` above everything. -/
def Impact.leq : Impact → Impact → Bool
  | _, .infinity => true
  | .infinity, .finite _ => false
  | .finite a, .finite b => decide (a ≤ b)

/-- `impact > self.impact_threshold` in `execute_order`. -/
def impact_exceeds (i : Impact) (threshold : ℚ) : Bool :=
  match i with
  | .infinity => true
  | .finite x => decide (threshold < x)

/-- `ExecutionAgent._estimate_market_impact`.  With market data present
the impact is `volume_factor * 0.5 + volatility_factor * 0.3 +
spread_factor * 0.2`, where `volume_factor = quantity / avg_volume`,
`volatility_factor = volatility / 0.2` (the literal `0.2` normalising
to 20% volatility) and `spread_factor = spread / self.max_spread`.
Unavailable market data, or a division by zero, raises and the
`except` path returns `float('inf')`. -/
def estimate_market_impact (cfg : ExecutionConfig) (request : OrderRequest)
    (md : Option MarketState) : Impact :=
  match md with
  | none => .infinity
  | some m =>
    if m.average_volume = 0 ∨ cfg.max_spread = 0 then .infinity
    else
      .finite (request.quantity / m.average_volume * (1/2)
        + m.volatility / (1/5) * (3/10)
        + m.spread / cfg.max_spread * (1/5))

/-- The `scores` dict built by `_select_execution_strategy`, in its
insertion order.  The five `_score_*` methods are called but defined
nowhere under the repository, so the per-strategy scores are the input
`score`. -/
def strategy_items (score : ExecutionStrategy → ℚ) :
    List (ExecutionStrategy × ℚ) :=
  [(.AGGRESSIVE, score .AGGRESSIVE),
   (.PASSIVE, score .PASSIVE),
   (.SMART, score .SMART),
   (.VWAP, score .VWAP),
   (.TWAP, score .TWAP)]

/-- Python's `max(items, key=lambda x: x[1])` starting from an initial
best: a later item replaces the current best only when its value is
strictly greater, so the first item attaining the maximum wins. -/
def py_max_by_value : List (ExecutionStrategy × ℚ) →
    (ExecutionStrategy × ℚ) → (ExecutionStrategy × ℚ)
  | [], best => best
  | x :: rest, best => py_max_by_value rest (if best.2 < x.2 then x else best)

/-- `max(scores.items(), key=lambda x: x[1])[0]` over the scores dict:
the fold starts from the first item, and folding the first item against
itself is a no-op since the replacement test is strict. -/
def select_strategy_scores (score : ExecutionStrategy → ℚ) : ExecutionStrategy :=
  (py_max_by_value (strategy_items score) (.AGGRESSIVE, score .AGGRESSIVE)).1

/-- `ExecutionAgent._select_execution_strategy`: score the five
candidates and take the maximum; any failure while fetching market
data lands in the `except` path, which returns `SMART`. -/
def select_execution_strategy (md : Option MarketState)
    (score : ExecutionStrategy → ℚ) : ExecutionStrategy :=
  match md with
  | none => .SMART
  | some _ => select_strategy_scores score

/-- Dict-insertion position of a strategy in the `scores` dict. -/
def insertion_index : ExecutionStrategy → Nat
  | .AGGRESSIVE => 0
  | .PASSIVE => 1
  | .SMART => 2
  | .VWAP => 3
  | .TWAP => 4

/-- The impact gate of `ExecutionAgent.execute_order`: the order is
adjusted before placement exactly when the estimated impact exceeds
`self.impact_threshold`. -/
def order_adjusted_for_impact (cfg : ExecutionConfig)
    (request : OrderRequest) (md : Option MarketState) : Bool :=
  impact_exceeds (estimate_market_impact cfg request md) cfg.impact_threshold

/-- `maxlen` of the three deques in `ExecutionAgent.__init__`. -/
def metrics_capacity : Nat := 1000

/-- `deque(maxlen=cap).append(x)`: when the deque is at capacity the
oldest (leftmost) entry is discarded. -/
def deque_append (cap : Nat) (xs : List ℚ) (x : ℚ) : List ℚ :=
  if xs.length < cap then xs ++ [x] else xs.drop 1 ++ [x]

/-- The `execution_metrics` dict of rolling windows. -/
structure ExecutionMetrics where
  slippage : List ℚ
  fill_rates : List ℚ
  execution_times : List ℚ
deriving DecidableEq

/-- `ExecutionAgent._update_execution_metrics`: append the computed
slippage, fill rate and execution time to their windows. -/
def update_execution_metrics (m : ExecutionMetrics)
    (slippage fill_rate execution_time : ℚ) : ExecutionMetrics :=
  { slippage := deque_append metrics_capacity m.slippage slippage
    fill_rates := deque_append metrics_capacity m.fill_rates fill_rate
    execution_times := deque_append metrics_capacity m.execution_times execution_time }

/-- Every rolling window holds at most `metrics_capacity` entries. -/
def MetricsInvariant (m : ExecutionMetrics) : Prop :=
  m.slippage.length ≤ metrics_capacity ∧
  m.fill_rates.length ≤ metrics_capacity ∧
  m.execution_times.length ≤ metrics_capacity

/-- `ExecutionAgent.monitor_order`: an unknown order id raises
`ValueError`, which the surrounding `except` converts into a `None`
return; for a known id the status produced by the monitoring pipeline
(`_get_order_status`, with no body under the repository) is returned. -/
def monitor_order (active_orders : List String)
    (get_status : String → OrderUpdate) (order_id : String) :
    Option OrderUpdate :=
  if order_id ∈ active_orders then some (get_status order_id) else none

/-- Risk parameters of the core `RiskManagementAgent`
(`Trader H v.1o/core/trading-system-core.py`). -/
structure CoreRiskConfig where
  max_position_size : ℚ
  max_portfolio_risk : ℚ
deriving DecidableEq

/-- The literal values of the core `RiskManagementAgent.__init__`. -/
def defaultCoreRiskConfig : CoreRiskConfig :=
  { max_position_size := 1/50, max_portfolio_risk := 1/20 }

/-- Core `RiskManagementAgent.validate_trade`: approve exactly when
both computed risks are within their limits.  The two risk calculators
`_calculate_position_risk` and `_calculate_portfolio_risk` are
bodyless stubs under the repository, so their results are the inputs
`position_risk` and `portfolio_risk`; any exception inside the body is
caught and yields `False`.  The return value is a bare boolean: no
position sizing is computed or returned. -/
def core_validate_trade (cfg : CoreRiskConfig)
    (position_risk portfolio_risk : ℚ) : Bool :=
  decide (position_risk ≤ cfg.max_position_size ∧
    portfolio_risk ≤ cfg.max_portfolio_risk)

/-- Outcome of one `execute_trade` call: whether `_place_order` was
reached (an order handed to the broker path) and the returned
boolean. -/
structure ExecAttempt where
  order_placed : Bool
  result : Bool
deriving DecidableEq

/-- Core `ExecutionAgent.execute_trade`: without risk approval it
returns `False` immediately, before any order-parameter, strategy or
placement logic runs; with approval it proceeds to `_place_order`
(a bodyless stub, whose boolean result is the input
`place_result`). -/
def core_execute_trade (risk_approved : Bool) (place_result : Bool) :
    ExecAttempt :=
  if risk_approved = false then ⟨false, false⟩
  else ⟨true, place_result⟩

/-- One iteration of the per-signal body of `TradingSystem.start`:
signals at confidence above `0.8` are risk-validated, and
`execute_trade` runs only when `validate_trade` returned `True`. -/
def process_signal (cfg : CoreRiskConfig) (confidence : ℚ)
    (position_risk portfolio_risk : ℚ) (place_result : Bool) :
    ExecAttempt :=
  if 4/5 < confidence then
    let risk_approved := core_validate_trade cfg position_risk portfolio_risk
    if risk_approved then core_execute_trade risk_approved place_result
    else ⟨false, false⟩
  else ⟨false, false⟩

/-- C2: for every signal and portfolio, the position size computed
during `validate_trade` equals portfolio total value × max position
fraction × confidence factor × volatility factor × correlation factor,
capped (via `min`) at the base fraction; in particular it never exceeds
the base fraction, and with portfolio value 1,000,000, max position
fraction 0.02 and all three factors 1.0 the approved size is at most
20,000. -/
theorem position_size_formula_and_cap (cfg : RiskConfig) (signal : Signal)
    (portfolio : PortfolioState) (volatility_factor correlation_factor : ℚ) :
    calculate_position_size cfg signal portfolio volatility_factor correlation_factor
      = min (portfolio.total_value * cfg.max_position_size
          * signal.confidence.getD (1/2) * volatility_factor * correlation_factor)
        (portfolio.total_value * cfg.max_position_size)
    ∧ calculate_position_size cfg signal portfolio volatility_factor correlation_factor
        ≤ portfolio.total_value * cfg.max_position_size
    ∧ calculate_position_size defaultRiskConfig ⟨"AAPL", "BUY", some 1⟩
        ⟨1000000, 1000000, [], 0, 0, 0⟩ 1 1 ≤ 20000 :=
  ⟨rfl, min_le_right _ _, by norm_num [calculate_position_size, defaultRiskConfig]⟩

/-- C4: with market data unavailable, impact estimation fails closed to
`float('inf')`, `execute_order` therefore treats the order as exceeding
the impact threshold and adjusts it before placement, and strategy
selection deterministically returns `SMART`; all three are ordinary
return values (the exceptions are caught inside the agent). -/
theorem missing_market_data_fails_closed (cfg : ExecutionConfig)
    (request : OrderRequest) (score : ExecutionStrategy → ℚ) :
    estimate_market_impact cfg request none = Impact.infinity
    ∧ order_adjusted_for_impact cfg request none = true
    ∧ select_execution_strategy none score = ExecutionStrategy.SMART :=
  ⟨rfl, rfl, rfl⟩

/-- The C5 scenario market state: average volume 200,000, volatility
equal to the reference volatility 0.2, spread equal to the configured
max spread 0.002. -/
def scenario_market : MarketState := ⟨200000, 1/5, 1/500⟩

/-- The C5 scenario order: quantity 100,000. -/
def scenario_request : OrderRequest :=
  ⟨"AAPL", .MARKET, "BUY", 100000, none, none, "DAY", .SMART⟩

/-- An execution configuration differing from the default in every
field except `max_spread`. -/
def altExecutionConfig : ExecutionConfig := ⟨77, 55, 1/500, 999, 42⟩

/-- C5 counterexample: changing every configuration field of the agent
other than `max_spread` leaves the estimated impact unchanged — the
weights 0.5/0.3/0.2 and the reference volatility 0.2 are hardcoded
literals of `_estimate_market_impact`, not configuration; the scenario
value itself is 0.75 as claimed. -/
theorem impact_weights_invariant_under_config :
    estimate_market_impact defaultExecutionConfig scenario_request (some scenario_market)
      = estimate_market_impact altExecutionConfig scenario_request (some scenario_market)
    ∧ estimate_market_impact defaultExecutionConfig scenario_request (some scenario_market)
      = Impact.finite (3/4) := by
  constructor <;>
    norm_num [estimate_market_impact, scenario_market, scenario_request,
      defaultExecutionConfig, altExecutionConfig]

/-- C5 (amended): with market data available (and the divisors
non-zero), the impact equals 0.5 × (quantity / average_volume) +
0.3 × (volatility / 0.2) + 0.2 × (spread / max_spread), where the
weights 0.5/0.3/0.2 and the reference volatility 0.2 are hardcoded
constants and only `max_spread` comes from the configuration. -/
theorem impact_formula_hardcoded_weights (cfg : ExecutionConfig)
    (request : OrderRequest) (m : MarketState)
    (h1 : m.average_volume ≠ 0) (h2 : cfg.max_spread ≠ 0) :
    estimate_market_impact cfg request (some m)
      = Impact.finite ((1/2) * (request.quantity / m.average_volume)
          + (3/10) * (m.volatility / (1/5))
          + (1/5) * (m.spread / cfg.max_spread)) := by
  simp only [estimate_market_impact]
  rw [if_neg (by simp [h1, h2])]
  exact congrArg Impact.finite (by ring)

/-- C5 witness: the amended formula evaluated at the scenario inputs. -/
theorem impact_formula_hardcoded_weights_witness :
    scenario_market.average_volume ≠ 0
    ∧ defaultExecutionConfig.max_spread ≠ 0
    ∧ estimate_market_impact defaultExecutionConfig scenario_request (some scenario_market)
        = Impact.finite ((1/2) * (scenario_request.quantity / scenario_market.average_volume)
            + (3/10) * (scenario_market.volatility / (1/5))
            + (1/5) * (scenario_market.spread / defaultExecutionConfig.max_spread)) :=
  ⟨by norm_num [scenario_market], by norm_num [defaultExecutionConfig],
    impact_formula_hardcoded_weights defaultExecutionConfig scenario_request
      scenario_market (by norm_num [scenario_market])
      (by norm_num [defaultExecutionConfig])⟩

/-- C10: `monitor_order` on an order id absent from the active-orders
store returns `None` (the internally raised `ValueError` is caught)
rather than an `OrderUpdate` or a propagated exception. -/
theorem monitor_order_unknown_returns_none (active_orders : List String)
    (get_status : String → OrderUpdate) (order_id : String)
    (h : order_id ∉ active_orders) :
    monitor_order active_orders get_status order_id = none := by
  simp [monitor_order, h]

/-- C10 witness: monitoring an unknown order id against a one-order
store. -/
theorem monitor_order_unknown_returns_none_witness :
    "ORD-2" ∉ ["ORD-1"]
    ∧ monitor_order ["ORD-1"]
        (fun oid => ⟨oid, .FILLED, 0, 0, 0, 0⟩) "ORD-2" = none :=
  ⟨by decide, monitor_order_unknown_returns_none _ _ _ (by decide)⟩

/-- C6: holding the market state fixed, the estimated impact is
monotonically non-decreasing in the requested quantity (for any
physically meaningful, i.e. non-negative, average volume; a zero
average volume sends both sides to infinity). -/
theorem impact_monotone_in_quantity (cfg : ExecutionConfig)
    (request : OrderRequest) (q1 q2 : ℚ) (m : MarketState)
    (hq : q1 ≤ q2) (hv : 0 ≤ m.average_volume) :
    Impact.leq
      (estimate_market_impact cfg { request with quantity := q1 } (some m))
      (estimate_market_impact cfg { request with quantity := q2 } (some m))
      = true := by
  by_cases h : m.average_volume = 0 ∨ cfg.max_spread = 0
  · simp only [estimate_market_impact, if_pos h, Impact.leq]
  · have havg : 0 < m.average_volume :=
      lt_of_le_of_ne hv (fun e => h (Or.inl e.symm))
    simp only [estimate_market_impact, if_neg h, Impact.leq,
      decide_eq_true_eq]
    have hdiv : q1 / m.average_volume ≤ q2 / m.average_volume :=
      (div_le_div_iff_of_pos_right havg).mpr hq
    linarith [hdiv]

/-- C6 witness: quantities 1 ≤ 2 against a concrete market state. -/
theorem impact_monotone_in_quantity_witness :
    (1:ℚ) ≤ 2 ∧ (0:ℚ) ≤ (MarketState.mk 100 1 1).average_volume ∧
    Impact.leq
      (estimate_market_impact defaultExecutionConfig
        { scenario_request with quantity := 1 } (some ⟨100, 1, 1⟩))
      (estimate_market_impact defaultExecutionConfig
        { scenario_request with quantity := 2 } (some ⟨100, 1, 1⟩))
      = true :=
  ⟨by norm_num, by norm_num,
    impact_monotone_in_quantity defaultExecutionConfig scenario_request 1 2
      ⟨100, 1, 1⟩ (by norm_num) (by norm_num)⟩

/-- Folding the per-position scenario P&L accumulation is the sum of
exposure × price_change over the open positions. -/
theorem foldl_scenario_pnl (l : List (String × Position)) (pc vc init : ℚ) :
    l.foldl (fun acc pos => acc + calculate_scenario_pnl pos.2 pc vc) init
      = init + (l.map (fun pos => pos.2.quantity * pos.2.current_price * pc)).sum := by
  induction l generalizing init with
  | nil => simp
  | cons x xs ih =>
    rw [List.foldl_cons, ih]
    simp only [List.map_cons, List.sum_cons, calculate_scenario_pnl]
    ring

/-- C8: for every portfolio (of non-zero total value, without which the
source's division raises), the stress-test results list, for each of
the three configured scenarios, the first-order P&L — the sum over open
positions of exposure × price_change — both in currency and as a
fraction of portfolio total value. -/
theorem stress_tests_first_order_pnl (p : PortfolioState)
    (h : p.total_value ≠ 0) :
    run_stress_tests p =
      [("market_crash",
        (p.positions.map (fun pos => pos.2.quantity * pos.2.current_price * (-(3/20)))).sum,
        (p.positions.map (fun pos => pos.2.quantity * pos.2.current_price * (-(3/20)))).sum
          / p.total_value),
       ("sector_rotation",
        (p.positions.map (fun pos => pos.2.quantity * pos.2.current_price * (-(2/25)))).sum,
        (p.positions.map (fun pos => pos.2.quantity * pos.2.current_price * (-(2/25)))).sum
          / p.total_value),
       ("volatility_spike",
        (p.positions.map (fun pos => pos.2.quantity * pos.2.current_price * (-(1/20)))).sum,
        (p.positions.map (fun pos => pos.2.quantity * pos.2.current_price * (-(1/20)))).sum
          / p.total_value)] := by
  simp [run_stress_tests, h, stress_test_scenarios, foldl_scenario_pnl]

/-- The concrete one-position portfolio used as C8's witness input. -/
def witness_portfolio : PortfolioState :=
  ⟨100, 50, [("AAPL", ⟨"AAPL", "LONG", 2, 10, 20, 20⟩)], 0, 0, 0⟩

/-- C8 witness: the stress-test shape evaluated on a concrete
portfolio. -/
theorem stress_tests_first_order_pnl_witness :
    witness_portfolio.total_value ≠ 0 ∧
    run_stress_tests witness_portfolio =
      [("market_crash",
        (witness_portfolio.positions.map
          (fun pos => pos.2.quantity * pos.2.current_price * (-(3/20)))).sum,
        (witness_portfolio.positions.map
          (fun pos => pos.2.quantity * pos.2.current_price * (-(3/20)))).sum
          / witness_portfolio.total_value),
       ("sector_rotation",
        (witness_portfolio.positions.map
          (fun pos => pos.2.quantity * pos.2.current_price * (-(2/25)))).sum,
        (witness_portfolio.positions.map
          (fun pos => pos.2.quantity * pos.2.current_price * (-(2/25)))).sum
          / witness_portfolio.total_value),
       ("volatility_spike",
        (witness_portfolio.positions.map
          (fun pos => pos.2.quantity * pos.2.current_price * (-(1/20)))).sum,
        (witness_portfolio.positions.map
          (fun pos => pos.2.quantity * pos.2.current_price * (-(1/20)))).sum
          / witness_portfolio.total_value)] :=
  ⟨by norm_num [witness_portfolio],
    stress_tests_first_order_pnl witness_portfolio
      (by norm_num [witness_portfolio])⟩

/-- Appending to a window below or at capacity keeps it within
capacity. -/
theorem deque_append_length_le (xs : List ℚ) (x : ℚ)
    (h : xs.length ≤ metrics_capacity) :
    (deque_append metrics_capacity xs x).length ≤ metrics_capacity := by
  unfold metrics_capacity at h ⊢
  unfold deque_append
  split
  all_goals
    simp only [List.length_append, List.length_drop, List.length_cons,
      List.length_nil]
  all_goals omega

/-- Appending to a window exactly at capacity evicts exactly the
oldest entry. -/
theorem deque_append_at_capacity (xs : List ℚ) (x : ℚ)
    (h : xs.length = metrics_capacity) :
    deque_append metrics_capacity xs x = xs.drop 1 ++ [x] := by
  unfold metrics_capacity at h
  unfold deque_append metrics_capacity
  rw [if_neg]
  omega

/-- C9: a metrics update preserves the capacity bound of all three
rolling windows, and any window that is at its capacity of 1000 loses
exactly its oldest entry when the new value is appended. -/
theorem execution_metrics_window_invariant (m : ExecutionMetrics)
    (s f t : ℚ) (hm : MetricsInvariant m) :
    MetricsInvariant (update_execution_metrics m s f t)
    ∧ (m.slippage.length = metrics_capacity →
        (update_execution_metrics m s f t).slippage = m.slippage.drop 1 ++ [s])
    ∧ (m.fill_rates.length = metrics_capacity →
        (update_execution_metrics m s f t).fill_rates = m.fill_rates.drop 1 ++ [f])
    ∧ (m.execution_times.length = metrics_capacity →
        (update_execution_metrics m s f t).execution_times
          = m.execution_times.drop 1 ++ [t]) := by
  obtain ⟨h1, h2, h3⟩ := hm
  refine ⟨⟨?_, ?_, ?_⟩, fun hc => ?_, fun hc => ?_, fun hc => ?_⟩
  · exact deque_append_length_le _ _ h1
  · exact deque_append_length_le _ _ h2
  · exact deque_append_length_le _ _ h3
  · exact deque_append_at_capacity _ _ hc
  · exact deque_append_at_capacity _ _ hc
  · exact deque_append_at_capacity _ _ hc

/-- C9 witness: updating empty metrics windows. -/
theorem execution_metrics_window_invariant_witness :
    MetricsInvariant ⟨[], [], []⟩
    ∧ (MetricsInvariant (update_execution_metrics ⟨[], [], []⟩ 1 2 3)
      ∧ ((List.length ([] : List ℚ) = metrics_capacity →
          (update_execution_metrics ⟨[], [], []⟩ 1 2 3).slippage
            = ([] : List ℚ).drop 1 ++ [1])
        ∧ (List.length ([] : List ℚ) = metrics_capacity →
          (update_execution_metrics ⟨[], [], []⟩ 1 2 3).fill_rates
            = ([] : List ℚ).drop 1 ++ [2])
        ∧ (List.length ([] : List ℚ) = metrics_capacity →
          (update_execution_metrics ⟨[], [], []⟩ 1 2 3).execution_times
            = ([] : List ℚ).drop 1 ++ [3]))) :=
  ⟨⟨by simp [metrics_capacity], by simp [metrics_capacity], by simp [metrics_capacity]⟩,
    execution_metrics_window_invariant ⟨[], [], []⟩ 1 2 3
      ⟨by simp [metrics_capacity], by simp [metrics_capacity], by simp [metrics_capacity]⟩⟩

/-- C7: whenever at least one risk check fails, `validate_trade`
returns `(False, rejection)` as an ordinary value — never an exception
— and the rejection names exactly the failed checks (a check's name
appears in the list if and only if that check failed). -/
theorem rejection_reports_exactly_failed_checks (cfg : RiskConfig)
    (checks : RiskChecks) (signal : Signal) (portfolio : PortfolioState)
    (volatility_factor correlation_factor : ℚ)
    (risk_level stop_loss take_profit : ℚ)
    (h : checks.all_pass = false) :
    validate_trade cfg checks signal portfolio volatility_factor
        correlation_factor risk_level stop_loss take_profit
      = (false, ValidationOutcome.rejected (failed_checks checks))
    ∧ ∀ kv ∈ checks.toList, (kv.2 = false ↔ kv.1 ∈ failed_checks checks) := by
  constructor
  · simp [validate_trade, h]
  · clear h
    obtain ⟨b1, b2, b3, b4, b5, b6, b7⟩ := checks
    revert b1 b2 b3 b4 b5 b6 b7
    decide

/-- C7 witness: two failed checks out of seven. -/
theorem rejection_reports_exactly_failed_checks_witness :
    RiskChecks.all_pass ⟨true, false, true, true, false, true, true⟩ = false
    ∧ (validate_trade defaultRiskConfig ⟨true, false, true, true, false, true, true⟩
          ⟨"AAPL", "BUY", some 1⟩ ⟨1000000, 1000000, [], 0, 0, 0⟩ 1 1 0 0 0
        = (false, ValidationOutcome.rejected
            (failed_checks ⟨true, false, true, true, false, true, true⟩))
      ∧ ∀ kv ∈ RiskChecks.toList ⟨true, false, true, true, false, true, true⟩,
          (kv.2 = false ↔
            kv.1 ∈ failed_checks ⟨true, false, true, true, false, true, true⟩)) :=
  ⟨by decide,
    rejection_reports_exactly_failed_checks defaultRiskConfig
      ⟨true, false, true, true, false, true, true⟩
      ⟨"AAPL", "BUY", some 1⟩ ⟨1000000, 1000000, [], 0, 0, 0⟩ 1 1 0 0 0
      (by decide)⟩

/-- C1 counterexample: risk approval carries no positive-sizing
guarantee.  A zero-confidence signal against a healthy portfolio is
approved by `validate_trade` with position size 0, the sizing 0 is not
strictly positive, and the execution gate — which consumes only the
boolean approval — still reaches order placement. -/
theorem approval_without_positive_sizing_still_places :
    validate_trade defaultRiskConfig ⟨true, true, true, true, true, true, true⟩
        ⟨"AAPL", "BUY", some 0⟩ ⟨1000000, 1000000, [], 0, 0, 0⟩ 1 1 0 0 0
      = (true, ValidationOutcome.approved ⟨0, 0, 0, 0⟩)
    ∧ ¬ ((0:ℚ) > 0)
    ∧ core_execute_trade true true = ⟨true, true⟩ := by
  refine ⟨?_, by norm_num, rfl⟩
  norm_num [validate_trade, calculate_position_size, defaultRiskConfig,
    RiskChecks.all_pass, RiskChecks.toList, min_def]

/-- C1 (amended): in the trading loop a signal reaches order placement
only if the prior `validate_trade` call returned approval (a bare
boolean, with no position sizing attached), and `execute_trade`
without risk approval performs no placement and returns `False`. -/
theorem order_placement_requires_prior_risk_approval
    (cfg : CoreRiskConfig) (confidence position_risk portfolio_risk : ℚ)
    (place_result : Bool) :
    ((process_signal cfg confidence position_risk portfolio_risk
        place_result).order_placed = true →
      core_validate_trade cfg position_risk portfolio_risk = true)
    ∧ core_execute_trade false place_result = ⟨false, false⟩ := by
  constructor
  · intro h
    by_cases hv : core_validate_trade cfg position_risk portfolio_risk = true
    · exact hv
    · rw [Bool.not_eq_true] at hv
      simp [process_signal, hv] at h
  · rfl

/-- C1 witness: a high-confidence signal whose risks are within both
limits is approved and placed. -/
theorem order_placement_requires_prior_risk_approval_witness :
    (process_signal defaultCoreRiskConfig (9/10) (1/100) (1/100)
        true).order_placed = true
    ∧ core_validate_trade defaultCoreRiskConfig (1/100) (1/100) = true := by
  have hplaced : (process_signal defaultCoreRiskConfig (9/10) (1/100) (1/100)
      true).order_placed = true := by
    norm_num [process_signal, core_validate_trade, core_execute_trade,
      defaultCoreRiskConfig]
  exact ⟨hplaced,
    (order_placement_requires_prior_risk_approval defaultCoreRiskConfig
      (9/10) (1/100) (1/100) true).1 hplaced⟩

/-- C3 counterexample: with all five scores tied, Python's `max` keeps
the first item of the scores dict, so the selected strategy is
`AGGRESSIVE` — not the claimed highest-priority `SMART`. -/
theorem tie_break_follows_insertion_order_not_priority :
    select_execution_strategy (some ⟨100000, 1/10, 1/1000⟩) (fun _ => 0)
      = ExecutionStrategy.AGGRESSIVE
    ∧ ExecutionStrategy.AGGRESSIVE ≠ ExecutionStrategy.SMART := by
  constructor
  · simp [select_execution_strategy, select_strategy_scores, strategy_items,
      py_max_by_value]
  · decide

/-- C3 (amended): the selected strategy attains the maximum score, and
ties at the maximum are broken by the scores dict insertion order
Aggressive > Passive > Smart > VWAP > TWAP — every strategy strictly
earlier in that order than the selected one has a strictly smaller
score. -/
theorem strategy_selection_first_argmax (score : ExecutionStrategy → ℚ)
    (s : ExecutionStrategy) (m : MarketState) :
    score s ≤ score (select_execution_strategy (some m) score)
    ∧ (insertion_index s
          < insertion_index (select_execution_strategy (some m) score) →
        score s < score (select_execution_strategy (some m) score)) := by
  cases s <;>
    simp only [select_execution_strategy, select_strategy_scores,
      strategy_items, py_max_by_value] <;>
    split_ifs <;>
    refine ⟨by linarith, fun hidx => ?_⟩ <;>
    simp only [insertion_index] at hidx <;>
    first
      | exact absurd hidx (by omega)
      | linarith

/-- Scoring each strategy by its insertion position, as a rational. -/
def index_score (s : ExecutionStrategy) : ℚ := insertion_index s

/-- C3 witness: with strictly increasing scores the last strategy wins,
and the tie-priority clause applies to the first one. -/
theorem strategy_selection_first_argmax_witness :
    insertion_index ExecutionStrategy.AGGRESSIVE
        < insertion_index (select_execution_strategy (some ⟨1, 1, 1⟩) index_score)
    ∧ index_score ExecutionStrategy.AGGRESSIVE
        < index_score (select_execution_strategy (some ⟨1, 1, 1⟩) index_score) := by
  have hsel : select_execution_strategy (some ⟨1, 1, 1⟩) index_score
      = ExecutionStrategy.TWAP := by
    norm_num [select_execution_strategy, select_strategy_scores,
      strategy_items, py_max_by_value, index_score, insertion_index]
  refine ⟨?_,
    (strategy_selection_first_argmax index_score ExecutionStrategy.AGGRESSIVE
      ⟨1, 1, 1⟩).2 ?_⟩ <;>
    rw [hsel] <;> norm_num [insertion_index]
